import Mathlib

/-!
Shallow embedding of the LINE daily check-in bot (src/app.py, src/scheduler.py).

The relational store (PostgreSQL tables `group_reporters`, `reports`,
`settings`) is modelled as an explicit `DBState` record of row lists; every
SQL statement of the source is translated to the corresponding list
operation. Each distinct user-facing return string of a store function in
`app.py` is represented by one constructor of a result type. Strings are
Lean `String`s; Python's Unicode-aware character classes are embedded for
the ASCII and CJK ranges actually exercised by the bot's commands.
-/

namespace LineBot

abbrev GroupId := String
abbrev Name := String

/-- A calendar date, as produced by `datetime.strptime(s, '%Y.%m.%d').date()`. -/
structure Date where
  year : Nat
  month : Nat
  day : Nat
deriving DecidableEq, Repr

/-- Gregorian leap-year rule used by Python's `datetime`. -/
def isLeap (y : Nat) : Bool :=
  (y % 4 == 0 && y % 100 != 0) || y % 400 == 0

/-- Number of days in a month, as validated by Python's `datetime`. -/
def daysInMonth (y m : Nat) : Nat :=
  if m = 2 then (if isLeap y then 29 else 28)
  else if m = 4 ∨ m = 6 ∨ m = 9 ∨ m = 11 then 30
  else 31

/-- Split a character list on `'.'` (the literal separators of the
`'%Y.%m.%d'` format string). -/
def splitOnDot : List Char → List (List Char)
  | [] => [[]]
  | c :: rest =>
    let r := splitOnDot rest
    if c = '.' then [] :: r
    else
      match r with
      | h :: t => (c :: h) :: t
      | [] => [[c]]

/-- Numeric value of a digit list. -/
def digitsToNat (cs : List Char) : Nat :=
  cs.foldl (fun acc c => acc * 10 + (c.toNat - 48)) 0

/-- Embedding of `datetime.strptime(s, '%Y.%m.%d')` (src/app.py line 191):
`%Y` is exactly four digits, `%m` and `%d` are one or two digits, the whole
string must be consumed, and `datetime` validates month in 1..12, day
against the month length, and year at least 1. Returns `none` exactly when
strptime raises `ValueError` (ASCII digits; the dispatcher only ever feeds
this digit-and-dot strings). -/
def parseDate (s : String) : Option Date :=
  match splitOnDot s.toList with
  | [ys, ms, ds] =>
    if ys.all Char.isDigit ∧ ys.length = 4
        ∧ ms.all Char.isDigit ∧ (ms.length = 1 ∨ ms.length = 2)
        ∧ ds.all Char.isDigit ∧ (ds.length = 1 ∨ ds.length = 2) then
      let y := digitsToNat ys
      let m := digitsToNat ms
      let d := digitsToNat ds
      if 1 ≤ y ∧ 1 ≤ m ∧ m ≤ 12 ∧ 1 ≤ d ∧ d ≤ daysInMonth y m then
        some ⟨y, m, d⟩
      else none
    else none
  | _ => none

/-- The database state: the three tables created by
`ensure_tables_exist` (src/scheduler.py lines 43-89).
`group_reporters` rows are `(group_id, reporter_name)`, `reports` rows are
`(group_id, report_date, name)`, and `settings_is_paused` is the value of
the single `settings` row with key `'is_paused'` (absent when the row does
not exist). -/
structure DBState where
  group_reporters : List (GroupId × Name)
  reports : List (GroupId × Date × Name)
  settings_is_paused : Option String
deriving DecidableEq, Repr

/-- Outcomes of `save_report` (src/app.py lines 183-216), one constructor
per distinct return string: the date-format error, the
not-yet-on-the-roster prompt, the already-reported message, and the
success message. -/
inductive SaveResult where
  | invalidDate
  | notOnRoster
  | duplicateForDate
  | recorded
deriving DecidableEq, Repr

/-- Outcomes of `add_reporter` (src/app.py lines 73-93). -/
inductive AddResult where
  | alreadyExists
  | added
deriving DecidableEq, Repr

/-- Outcomes of `delete_reporter` (src/app.py lines 95-118). -/
inductive DeleteResult where
  | notFound
  | removed
deriving DecidableEq, Repr

/-- `add_reporter(group_id, reporter_name)` (src/app.py lines 73-93):
SELECT for a row with the exact `(group_id, reporter_name)`; if found,
return the already-in-the-list message and change nothing; otherwise
INSERT the row and return the welcome message. No normalization is
applied to the name at any point. -/
def add_reporter (g : GroupId) (n : Name) (st : DBState) : AddResult × DBState :=
  if (g, n) ∈ st.group_reporters then
    (AddResult.alreadyExists, st)
  else
    (AddResult.added, { st with group_reporters := st.group_reporters ++ [(g, n)] })

/-- `delete_reporter(group_id, reporter_name)` (src/app.py lines 95-118):
SELECT for the exact `(group_id, reporter_name)` row; if absent, return
the not-found message and change nothing; otherwise DELETE that roster row
and DELETE every `reports` row of that group with that exact name (all
dates), then return the removed message. -/
def delete_reporter (g : GroupId) (n : Name) (st : DBState) : DeleteResult × DBState :=
  if (g, n) ∈ st.group_reporters then
    (DeleteResult.removed,
      { st with
        group_reporters := st.group_reporters.filter (fun r => ¬(r.1 = g ∧ r.2 = n)),
        reports := st.reports.filter (fun r => ¬(r.1 = g ∧ r.2.2 = n)) })
  else
    (DeleteResult.notFound, st)

/-- `save_report(group_id, report_date_str, reporter_name)` (src/app.py
lines 183-216): parse the date with strptime `'%Y.%m.%d'`, returning the
date-format message on failure before touching any table; then SELECT the
exact `(group_id, reporter_name)` roster row and reject with the
please-register prompt when absent (no auto-enroll); then SELECT the exact
`(group_id, report_date, name)` report row and return the
already-reported message without writing when present; otherwise INSERT
the report row. The duplicate key is the exact name string: no
normalization is computed anywhere in the function. -/
def save_report (g : GroupId) (dateStr : String) (n : Name) (st : DBState) :
    SaveResult × DBState :=
  match parseDate dateStr with
  | none => (SaveResult.invalidDate, st)
  | some d =>
    if (g, n) ∈ st.group_reporters then
      if (g, d, n) ∈ st.reports then
        (SaveResult.duplicateForDate, st)
      else
        (SaveResult.recorded, { st with reports := st.reports ++ [(g, d, n)] })
    else
      (SaveResult.notOnRoster, st)

/-- `set_pause_state(state)` (src/app.py lines 41-69): INSERT the
`'is_paused'` settings row with a default when missing, then UPDATE its
value to `state`; the net effect on the row is that its value becomes
`state`. -/
def set_pause_state (state : String) (st : DBState) : DBState :=
  { st with settings_is_paused := some state }

/-! ## Absentee scanner (src/scheduler.py) -/

/-- ASCII lowering of a character, the fragment of Python's `str.lower()`
exercised by the `'true'` comparison. -/
def lowerChar (c : Char) : Char :=
  if 'A' ≤ c ∧ c ≤ 'Z' then Char.ofNat (c.toNat + 32) else c

/-- `s.lower()` on the stored setting value. -/
def lowerStr (s : String) : String :=
  String.mk (s.toList.map lowerChar)

/-- `is_global_pause_state(conn)` (src/scheduler.py lines 92-104): SELECT
the `'is_paused'` settings row; `True` exactly when a row exists and its
lowered value is `'true'`. -/
def is_global_pause_state (st : DBState) : Bool :=
  match st.settings_is_paused with
  | some v => lowerStr v = "true"
  | none => false

/-- `SELECT reporter_name FROM group_reporters WHERE group_id = g`
(src/scheduler.py line 153). -/
def groupReporterNames (st : DBState) (g : GroupId) : List Name :=
  (st.group_reporters.filter (fun r => r.1 = g)).map (fun r => r.2)

/-- `SELECT reporter_name FROM reports WHERE group_id = g AND
report_date = d` (src/scheduler.py lines 161-162). -/
def reportedNames (st : DBState) (g : GroupId) (d : Date) : List Name :=
  (st.reports.filter (fun r => r.1 = g ∧ r.2.1 = d)).map (fun r => r.2.2)

/-- Lexicographic comparison on code points, the order behind Python's
`sorted` on the missing-name strings. -/
def charListLe : List Char → List Char → Bool
  | [], _ => true
  | _ :: _, [] => false
  | a :: as, b :: bs =>
    if a.toNat < b.toNat then true
    else if a.toNat = b.toNat then charListLe as bs
    else false

def strLe (a b : Name) : Bool := charListLe a.toList b.toList

/-- Insertion step of the sort used to model Python's `sorted`. -/
def insertSorted (n : Name) : List Name → List Name
  | [] => [n]
  | m :: ms => if strLe n m then n :: m :: ms else m :: insertSorted n ms

/-- `sorted(...)` over a list of names (insertion sort). -/
def sortNames (l : List Name) : List Name := l.foldr insertSorted []

/-- `missing_reports = sorted(list(all_reporters - reported_reporters))`
(src/scheduler.py line 166): the group's roster names are read into a set,
the names reported for the date into another, and the sorted set
difference is taken. Sets are modelled by `dedup` on the fetched lists. -/
def missingNames (st : DBState) (g : GroupId) (d : Date) : List Name :=
  sortNames (((groupReporterNames st g).filter
    (fun n => ¬ n ∈ reportedNames st g d)).dedup)

/-- `SELECT DISTINCT group_id FROM group_reporters` (src/scheduler.py
line 141); SQL leaves the order unspecified, so any duplicate-free list of
the occurring group ids is a faithful model. -/
def distinctGroupIds (rows : List (GroupId × Name)) : List GroupId :=
  (rows.map (fun r => r.1)).dedup

/-- One `push_message` sent by the scanner: the target group and the
missing names listed in the reminder text (src/scheduler.py
lines 168-190; the message body interpolates exactly `missing_reports`). -/
structure Push where
  gid : GroupId
  missing : List Name
deriving DecidableEq, Repr

/-- The per-group body of the scanner loop (src/scheduler.py
lines 145-192): skip excluded groups, skip groups with an empty fetched
roster, compute the missing names for the target date, and push a reminder
exactly when some name is missing. -/
def scanGroup (exclude : List GroupId) (d : Date) (st : DBState) (g : GroupId) :
    Option Push :=
  if g ∈ exclude then none
  else if groupReporterNames st g = [] then none
  else if missingNames st g d = [] then none
  else some ⟨g, missingNames st g d⟩

/-- `check_daily_reminder()` (src/scheduler.py lines 107-199), returning
the list of pushes it sends. The LINE-API and table-creation guards are
transport concerns outside the store model; the global pause flag is
checked once, before any group is processed, and suppresses the whole
scan; otherwise every distinct group id of `group_reporters` is processed
by `scanGroup` with the target date (yesterday, supplied by the caller's
clock) and the configured exclusion set. -/
def check_daily_reminder (exclude : List GroupId) (yesterday : Date) (st : DBState) :
    List Push :=
  if is_global_pause_state st then []
  else (distinctGroupIds st.group_reporters).filterMap (scanGroup exclude yesterday st)

/-! ## Message dispatcher (src/app.py, `handle_message`) -/

/-- Whitespace as matched by Python's `str.strip()` and `\s` on the
characters the bot's commands can contain (ASCII whitespace, the
ideographic space `U+3000` used in the command regexes, and the no-break
space). -/
def isWs (c : Char) : Bool :=
  c == ' ' || c == '\t' || c == '\n' || c == '\r' || c == '\x0b' || c == '\x0c'
    || c == '　' || c == ' '

/-- Python `s.strip()`. -/
def pyStrip (s : String) : String :=
  String.mk (((s.toList.dropWhile isWs).reverse.dropWhile isWs).reverse)

def firstLineChars : List Char → List Char
  | [] => []
  | c :: rest => if c = '\n' then [] else c :: firstLineChars rest

/-- `full_text.split('\n')[0]` (src/app.py line 414). -/
def firstLine (s : String) : String := String.mk (firstLineChars s.toList)

/-- Match a literal pattern at the head of a character list, returning the
remainder. -/
def matchLit : List Char → List Char → Option (List Char)
  | [], cs => some cs
  | _ :: _, [] => none
  | p :: ps, c :: cs => if p = c then matchLit ps cs else none

/-- `re.match(r"^<cmd>[\s　]+(.+)$", t)` for the add/remove commands
(src/app.py lines 460-468), returning group 1. `t` is already stripped,
so the greedy whitespace run is followed by a non-empty remainder exactly
when the command matches. -/
def matchCmdArg (cmd : String) (s : String) : Option String :=
  match matchLit cmd.toList s.toList with
  | none => none
  | some rest =>
    match rest with
    | [] => none
    | c :: _ =>
      if isWs c then
        let arg := rest.dropWhile isWs
        if arg = [] then none else some (String.mk arg)
      else none

/-- Exactly `n` digits at the head of the list. -/
def splitDigits : List Char → Nat → Option (List Char × List Char)
  | cs, 0 => some ([], cs)
  | [], _ + 1 => none
  | c :: rest, k + 1 =>
    if c.isDigit then
      match splitDigits rest k with
      | some (ds, r) => some (c :: ds, r)
      | none => none
    else none

/-- The `(\d{4}\.\d{2}\.\d{2})` group of the report regex (src/app.py
line 474): four digits, a dot, two digits, a dot, two digits. -/
def matchDate (cs : List Char) : Option (List Char × List Char) :=
  match splitDigits cs 4 with
  | some (y, r1) =>
    match r1 with
    | '.' :: r2 =>
      match splitDigits r2 2 with
      | some (m, r3) =>
        match r3 with
        | '.' :: r4 =>
          match splitDigits r4 2 with
          | some (d, r5) => some (y ++ '.' :: m ++ '.' :: d, r5)
          | none => none
        | _ => none
      | none => none
    | _ => none
  | none => none

/-- The character class `[\s\w一-鿿]` of the optional weekday
parenthetical: whitespace, word characters (ASCII letters, digits,
underscore) and the CJK unified ideographs. -/
def inParenClass (c : Char) : Bool :=
  isWs c || c.isAlphanum || c == '_' || (0x4e00 ≤ c.toNat && c.toNat ≤ 0x9fff)

/-- The optional group `[（(][\s\w一-鿿]+[)）]` of the report
regex: an opening bracket, a non-empty run of class characters (the run is
maximal, since neither bracket is in the class), and a closing bracket. -/
def matchParen (cs : List Char) : Option (List Char) :=
  match cs with
  | [] => none
  | c :: rest =>
    if c == '(' || c == '（' then
      let run := rest.takeWhile inParenClass
      let after := rest.dropWhile inParenClass
      if run = [] then none
      else
        match after with
        | c2 :: rest2 => if c2 == ')' || c2 == '）' then some rest2 else none
        | [] => none
    else none

/-- `re.match(r"^(\d{4}\.\d{2}\.\d{2})\s*(?:[\s　]*[（(][\s\w一-鿿]+[)）])?\s*(.+)$", t)`
(src/app.py lines 474-475) on the stripped first line `t`, returning
(group 1, group 2). The greedy optional parenthetical is tried first; when
it matches but leaves nothing for `(.+)`, the regex backtracks and drops
it, so the parenthesised text itself becomes the name. Group 2 is the
entire rest of the line: there is no separate name/content split. -/
def matchReportLine (s : String) : Option (String × String) :=
  match matchDate s.toList with
  | none => none
  | some (dcs, rest) =>
    let rest1 := rest.dropWhile isWs
    match matchParen rest1 with
    | some r =>
      let r2 := r.dropWhile isWs
      if r2 = [] then
        if rest1 = [] then none else some (String.mk dcs, String.mk rest1)
      else some (String.mk dcs, String.mk r2)
    | none =>
      if rest1 = [] then none else some (String.mk dcs, String.mk rest1)

/-- The source of an inbound message event (LINE's `SourceGroup`,
`SourceRoom`, `SourceUser`), carrying the id `handle_message` uses. -/
inductive Source where
  | group (group_id : GroupId)
  | room (room_id : GroupId)
  | user (user_id : String)
deriving DecidableEq, Repr

/-- The reply sent (if any) by `handle_message`, one constructor per
branch that assigns `reply_text`. The read-only query and test replies
are abstract tags: their text is formatting over reads and no claim
depends on it. -/
inductive ReplyMsg where
  | allReporters
  | pauseSet (paused : Bool)
  | testAll
  | testOne
  | addResult (r : AddResult) (n : Name)
  | deleteResult (r : DeleteResult) (n : Name)
  | reporterList
  | saveResult (r : SaveResult) (dateStr : String) (n : Name)
deriving DecidableEq, Repr

/-- The group/room command section of `handle_message` (src/app.py
lines 443-487): each pattern is tested in order and a later match
overwrites `reply_text` (the single `/TEST REMINDER` branch is guarded by
`reply_text is None`); store calls thread the database state. `t` is the
stripped first line. -/
def handleGroupCommands (gid : GroupId) (t : String) (st : DBState) :
    Option ReplyMsg × DBState :=
  let acc0 : Option ReplyMsg × DBState := (none, st)
  let acc1 :=
    if t = "/TEST ALL REMINDER" ∨ t = "群組測試提醒" ∨ t = "全群組測試" then
      (some ReplyMsg.testAll, acc0.2)
    else acc0
  let acc2 :=
    if t = "/TEST REMINDER" ∨ t = "測試提醒" then
      (if acc1.1 = none then (some ReplyMsg.testOne, acc1.2) else acc1)
    else acc1
  let acc3 :=
    match matchCmdArg "新增人名" t with
    | some a =>
      let n := pyStrip a
      let res := add_reporter gid n acc2.2
      (some (ReplyMsg.addResult res.1 n), res.2)
    | none => acc2
  let acc4 :=
    match matchCmdArg "刪除人名" t with
    | some a =>
      let n := pyStrip a
      let res := delete_reporter gid n acc3.2
      (some (ReplyMsg.deleteResult res.1 n), res.2)
    | none => acc3
  let acc5 :=
    if t = "查詢名單" ∨ t = "查看人員" ∨ t = "名單" ∨ t = "list" then
      (some ReplyMsg.reporterList, acc4.2)
    else acc4
  match matchReportLine t with
  | some p =>
    let n := pyStrip p.2
    let res := save_report gid p.1 n acc5.2
    (some (ReplyMsg.saveResult res.1 p.1 n), res.2)
  | none => acc5

/-- `handle_message(event)` (src/app.py lines 410-487): strip the first
line; the three global commands (cross-group list, pause, resume) are
handled for every source kind and return immediately; everything else is
only handled when the source is a group or a room (using its group/room
id); a one-on-one user chat falls through with no reply and no store
operation. -/
def handle_message (src : Source) (full_text : String) (st : DBState) :
    Option ReplyMsg × DBState :=
  let t := pyStrip (firstLine full_text)
  if t = "查詢所有人員" ∨ t = "all list" ∨ t = "所有名單" then
    (some ReplyMsg.allReporters, st)
  else if t = "暫停回報提醒" ∨ t = "pause reminder" then
    (some (ReplyMsg.pauseSet true), set_pause_state "true" st)
  else if t = "恢復回報提醒" ∨ t = "resume reminder" then
    (some (ReplyMsg.pauseSet false), set_pause_state "false" st)
  else
    match src with
    | Source.group gid => handleGroupCommands gid t st
    | Source.room rid => handleGroupCommands rid t st
    | Source.user _ => (none, st)

/-- The stripped first lines that trigger a branch for every source kind,
including one-on-one user chats (src/app.py lines 417-440). -/
def globalCmds : List String :=
  ["查詢所有人員", "all list", "所有名單",
   "暫停回報提醒", "pause reminder",
   "恢復回報提醒", "resume reminder"]

/-! ## Concrete states used by witnesses and counterexamples -/

/-- The empty database. -/
def emptyDB : DBState := ⟨[], [], none⟩

/-- A roster holding both a tagged and an untagged variant of the same
person's name in one group. -/
def c1State : DBState := ⟨[("g", "(A) Bob"), ("g", "Bob")], [], none⟩

/-- One reporter who has already reported for 2025-11-20. -/
def c1DupState : DBState := ⟨[("g", "Bob")], [("g", ⟨2025, 11, 20⟩, "Bob")], none⟩

/-- Roster {Alice, Bob} in group G1, no submissions. -/
def c4State : DBState := ⟨[("G1", "Alice"), ("G1", "Bob")], [], none⟩

/-- One registered reporter, no submissions. -/
def c6State : DBState := ⟨[("g", "Bob")], [], none⟩

/-- Two groups with overlapping names and submissions for 2025-01-01. -/
def c7State : DBState :=
  ⟨[("g", "A"), ("g", "B"), ("h", "A")],
   [("g", ⟨2025, 1, 1⟩, "A"), ("g", ⟨2025, 1, 1⟩, "B"), ("h", ⟨2025, 1, 1⟩, "A")], none⟩

/-- One roster entry and one submission, used to probe removal of an
absent name. -/
def c8State : DBState := ⟨[("g", "A")], [("g", ⟨2025, 1, 1⟩, "A")], none⟩

/-- A paused system with a reporter who has not submitted anything. -/
def c9State : DBState := ⟨[("G", "A")], [], some "true"⟩

/-! ## Helper lemmas -/

theorem splitDigits_head {cs : List Char} {n : Nat} {p : List Char × List Char}
    (hn : n ≠ 0) (h : splitDigits cs n = some p) :
    ∃ c rest, cs = c :: rest ∧ c.isDigit = true := by
  cases n with
  | zero => exact absurd rfl hn
  | succ k =>
    cases cs with
    | nil => simp [splitDigits] at h
    | cons c rest =>
      by_cases hd : c.isDigit
      · exact ⟨c, rest, rfl, hd⟩
      · simp [splitDigits, hd] at h

theorem matchDate_head_digit {cs : List Char} {p : List Char × List Char}
    (h : matchDate cs = some p) :
    ∃ c rest, cs = c :: rest ∧ c.isDigit = true := by
  unfold matchDate at h
  cases hs : splitDigits cs 4 with
  | none => rw [hs] at h; simp at h
  | some q => exact splitDigits_head (by decide) hs

theorem matchReportLine_head_digit {s : String} {p : String × String}
    (h : matchReportLine s = some p) :
    ∃ c rest, s.toList = c :: rest ∧ c.isDigit = true := by
  unfold matchReportLine at h
  cases hs : matchDate s.toList with
  | none => rw [hs] at h; simp at h
  | some q => exact matchDate_head_digit hs

theorem str_ne_of_digit_head {t : String} {c : Char} {cs : List Char}
    (ht : t.toList = c :: cs) (hc : c.isDigit = true)
    {lit : String} (hl : lit.toList.head?.any Char.isDigit = false) : t ≠ lit := by
  intro h
  subst h
  rw [ht] at hl
  simp [hc] at hl

theorem matchCmdArg_none_of_digit_head {t : String} {c : Char} {cs : List Char}
    (ht : t.toList = c :: cs) (hc : c.isDigit = true)
    {cmd : String} {d : Char} {ds : List Char} (hcmd : cmd.toList = d :: ds)
    (hd : d.isDigit = false) : matchCmdArg cmd t = none := by
  have hne : ¬ d = c := by
    intro h
    rw [h, hc] at hd
    simp at hd
  unfold matchCmdArg
  rw [hcmd, ht]
  simp [matchLit, hne]

/-- When the stripped first line matches the report regex, it starts with
a digit, so every other pattern of the group-command section misses and
the final overwrite of `reply_text` is the `save_report` branch. -/
theorem handleGroupCommands_report (gid : GroupId) (t : String) (st : DBState)
    (ds nm : String) (hm : matchReportLine t = some (ds, nm)) :
    handleGroupCommands gid t st =
      (some (ReplyMsg.saveResult (save_report gid ds (pyStrip nm) st).1
          ds (pyStrip nm)),
        (save_report gid ds (pyStrip nm) st).2) := by
  obtain ⟨c, cs, ht, hc⟩ := matchReportLine_head_digit hm
  have e1 : t ≠ "/TEST ALL REMINDER" := str_ne_of_digit_head ht hc (by decide)
  have e2 : t ≠ "群組測試提醒" := str_ne_of_digit_head ht hc (by decide)
  have e3 : t ≠ "全群組測試" := str_ne_of_digit_head ht hc (by decide)
  have e4 : t ≠ "/TEST REMINDER" := str_ne_of_digit_head ht hc (by decide)
  have e5 : t ≠ "測試提醒" := str_ne_of_digit_head ht hc (by decide)
  have e6 : t ≠ "查詢名單" := str_ne_of_digit_head ht hc (by decide)
  have e7 : t ≠ "查看人員" := str_ne_of_digit_head ht hc (by decide)
  have e8 : t ≠ "名單" := str_ne_of_digit_head ht hc (by decide)
  have e9 : t ≠ "list" := str_ne_of_digit_head ht hc (by decide)
  have eadd : matchCmdArg "新增人名" t = none :=
    matchCmdArg_none_of_digit_head ht hc rfl (by decide)
  have edel : matchCmdArg "刪除人名" t = none :=
    matchCmdArg_none_of_digit_head ht hc rfl (by decide)
  simp [handleGroupCommands, e1, e2, e3, e4, e5, e6, e7, e8, e9, eadd, edel, hm]

/-! ## Claim theorems -/

/-- C1 (amended): `save_report` keys duplicates by the exact reporter
name, with no normalization: when the name is on the group's roster and a
Submission already exists for the exact (group, date, name), it returns
the duplicate message and leaves the store unchanged. -/
theorem save_report_duplicate_same_name (g : GroupId) (ds : String) (n : Name)
    (st : DBState) (D : Date) (hd : parseDate ds = some D)
    (hr : (g, n) ∈ st.group_reporters) (hdup : (g, D, n) ∈ st.reports) :
    save_report g ds n st = (SaveResult.duplicateForDate, st) := by
  simp [save_report, hd, hr, hdup]

/-- C1 witness: resubmitting the exact name Bob for 2025-11-20 reports the
duplicate and changes nothing. -/
theorem save_report_duplicate_same_name_witness :
    save_report "g" "2025.11.20" "Bob" c1DupState =
      (SaveResult.duplicateForDate, c1DupState) :=
  save_report_duplicate_same_name "g" "2025.11.20" "Bob" c1DupState ⟨2025, 11, 20⟩
    (by decide) (by decide) (by decide)

/-- C1 counterexample: with both "(A) Bob" and "Bob" on the roster,
submitting as "(A) Bob" and then as "Bob" for the same group and date
yields two Submissions, and the second call reports success rather than a
duplicate — the store does not match the two names to one key. -/
theorem c1_two_submissions :
    (save_report "g" "2025.11.20" "Bob"
        (save_report "g" "2025.11.20" "(A) Bob" c1State).2).1 = SaveResult.recorded ∧
    (save_report "g" "2025.11.20" "Bob"
        (save_report "g" "2025.11.20" "(A) Bob" c1State).2).2.reports.length = 2 := by
  decide

/-- C3 (amended): a submit with a valid date whose name has no RosterEntry
in the group returns the not-on-roster prompt and writes nothing; no
RosterEntry is auto-created. -/
theorem save_report_rejects_unknown (g : GroupId) (ds : String) (n : Name)
    (st : DBState) (D : Date) (hd : parseDate ds = some D)
    (hr : (g, n) ∉ st.group_reporters) :
    save_report g ds n st = (SaveResult.notOnRoster, st) := by
  simp [save_report, hd, hr]

/-- C3 witness: Carol, unknown to the empty database, is rejected with the
state unchanged. -/
theorem save_report_rejects_unknown_witness :
    save_report "g2" "2025.11.18" "Carol" emptyDB = (SaveResult.notOnRoster, emptyDB) :=
  save_report_rejects_unknown "g2" "2025.11.18" "Carol" emptyDB ⟨2025, 11, 18⟩
    (by decide) (by decide)

/-- C3 counterexample: submitting "Bob" with a valid date to the empty
database rejects the report and creates no RosterEntry and no Submission,
instead of auto-enrolling and recording. -/
theorem c3_no_auto_enroll :
    save_report "g" "2025.11.17" "Bob" emptyDB = (SaveResult.notOnRoster, emptyDB) ∧
    (save_report "g" "2025.11.17" "Bob" emptyDB).2.group_reporters = [] := by
  decide

/-- C5 (amended): `add_reporter` deduplicates on the exact display name:
when the exact (group, name) row exists it returns the already-exists
message and makes no change, and otherwise inserts the one row and reports
it added. -/
theorem add_reporter_exact_key (g : GroupId) (n : Name) (st : DBState) :
    ((g, n) ∈ st.group_reporters →
      add_reporter g n st = (AddResult.alreadyExists, st)) ∧
    ((g, n) ∉ st.group_reporters →
      add_reporter g n st =
        (AddResult.added,
          { st with group_reporters := st.group_reporters ++ [(g, n)] })) := by
  constructor
  · intro h; simp [add_reporter, h]
  · intro h; simp [add_reporter, h]

/-- C5 witness: adding Bob to the empty database inserts exactly his
row. -/
theorem add_reporter_exact_key_witness :
    add_reporter "g" "Bob" emptyDB =
      (AddResult.added, (⟨[("g", "Bob")], [], none⟩ : DBState)) :=
  (add_reporter_exact_key "g" "Bob" emptyDB).2 (by decide)

/-- C5 counterexample: adding "(A) Bob" and then the same-normalized,
differently-tagged "Bob" leaves two RosterEntries and the second call
reports Added, not AlreadyExists. -/
theorem c5_two_roster_entries :
    (add_reporter "g" "Bob" (add_reporter "g" "(A) Bob" emptyDB).2).1 =
      AddResult.added ∧
    (add_reporter "g" "Bob"
      (add_reporter "g" "(A) Bob" emptyDB).2).2.group_reporters.length = 2 := by
  decide

/-- C6: for every date string the strict YYYY.MM.DD parse rejects
(including well-formed but out-of-range dates), `save_report` returns the
invalid-date message and writes nothing to any store. -/
theorem save_report_invalid_date (g : GroupId) (ds : String) (n : Name)
    (st : DBState) (hd : parseDate ds = none) :
    save_report g ds n st = (SaveResult.invalidDate, st) := by
  simp [save_report, hd]

/-- C6 witness: "2025.13.01" (month out of range) fails the parse and the
submit leaves the state unchanged. -/
theorem save_report_invalid_date_witness :
    parseDate "2025.13.01" = none ∧
    save_report "g" "2025.13.01" "Bob" c6State = (SaveResult.invalidDate, c6State) :=
  ⟨by decide, save_report_invalid_date "g" "2025.13.01" "Bob" c6State (by decide)⟩

/-- C7: removing a name that is on the group's roster reports it removed,
and the resulting state holds exactly the roster rows other than that
entry and exactly the report rows other than that person's rows in that
group (all other groups' and people's data, and the settings, are
untouched). -/
theorem delete_reporter_cascades (g : GroupId) (n : Name) (st : DBState)
    (h : (g, n) ∈ st.group_reporters) :
    (delete_reporter g n st).1 = DeleteResult.removed ∧
    (∀ g2 n2, ((g2, n2) ∈ (delete_reporter g n st).2.group_reporters ↔
      ((g2, n2) ∈ st.group_reporters ∧ ¬(g2 = g ∧ n2 = n)))) ∧
    (∀ g2 d n2, ((g2, d, n2) ∈ (delete_reporter g n st).2.reports ↔
      ((g2, d, n2) ∈ st.reports ∧ ¬(g2 = g ∧ n2 = n)))) ∧
    (delete_reporter g n st).2.settings_is_paused = st.settings_is_paused := by
  refine ⟨?_, ?_, ?_, ?_⟩
  · simp [delete_reporter, if_pos h]
  · intro g2 n2
    simp [delete_reporter, if_pos h, List.mem_filter]
    tauto
  · intro g2 d n2
    simp [delete_reporter, if_pos h, List.mem_filter]
    tauto
  · simp [delete_reporter, if_pos h]

/-- C7 witness: removing A from group g keeps B's row in g and all of
group h's data. -/
theorem delete_reporter_cascades_witness :
    (delete_reporter "g" "A" c7State).1 = DeleteResult.removed ∧
    (("g", "B") ∈ (delete_reporter "g" "A" c7State).2.group_reporters ↔
      (("g", "B") ∈ c7State.group_reporters ∧ ¬("g" = "g" ∧ "B" = "A"))) ∧
    (("h", ⟨2025, 1, 1⟩, "A") ∈ (delete_reporter "g" "A" c7State).2.reports ↔
      (("h", ⟨2025, 1, 1⟩, "A") ∈ c7State.reports ∧ ¬("h" = "g" ∧ "A" = "A"))) :=
  ⟨(delete_reporter_cascades "g" "A" c7State (by decide)).1,
   (delete_reporter_cascades "g" "A" c7State (by decide)).2.1 "g" "B",
   (delete_reporter_cascades "g" "A" c7State (by decide)).2.2.1 "h" ⟨2025, 1, 1⟩ "A"⟩

/-- C8: removing a name that is not on the group's roster (by the exact
matching key) reports not-found and leaves the whole state — roster and
submissions — unchanged. -/
theorem delete_reporter_absent (g : GroupId) (n : Name) (st : DBState)
    (h : (g, n) ∉ st.group_reporters) :
    delete_reporter g n st = (DeleteResult.notFound, st) := by
  simp [delete_reporter, h]

/-- C8 witness: removing the absent B from a state holding only A changes
nothing. -/
theorem delete_reporter_absent_witness :
    delete_reporter "g" "B" c8State = (DeleteResult.notFound, c8State) :=
  delete_reporter_absent "g" "B" c8State (by decide)

/-- C9: the global pause flag is read once, before any group is processed,
and whenever it is set the scan pushes no reminder to any group. -/
theorem paused_scan_sends_nothing (exclude : List GroupId) (d : Date)
    (st : DBState) (h : is_global_pause_state st = true) :
    check_daily_reminder exclude d st = [] := by
  simp [check_daily_reminder, h]

/-- C9 witness: with the pause flag stored as "true", a state whose only
reporter has not submitted receives no push. -/
theorem paused_scan_sends_nothing_witness :
    is_global_pause_state c9State = true ∧
    check_daily_reminder [] ⟨2025, 11, 20⟩ c9State = [] :=
  ⟨by decide, paused_scan_sends_nothing [] ⟨2025, 11, 20⟩ c9State (by decide)⟩

/-- C10: a text message from a one-on-one user chat whose stripped first
line is none of the global commands triggers no store operation and no
reply: the handler returns no reply and the state unchanged. -/
theorem user_chat_is_noop (uid : String) (txt : String) (st : DBState)
    (h : ∀ c ∈ globalCmds, pyStrip (firstLine txt) ≠ c) :
    handle_message (Source.user uid) txt st = (none, st) := by
  have h1 := h "查詢所有人員" (by simp [globalCmds])
  have h2 := h "all list" (by simp [globalCmds])
  have h3 := h "所有名單" (by simp [globalCmds])
  have h4 := h "暫停回報提醒" (by simp [globalCmds])
  have h5 := h "pause reminder" (by simp [globalCmds])
  have h6 := h "恢復回報提醒" (by simp [globalCmds])
  have h7 := h "resume reminder" (by simp [globalCmds])
  simp [handle_message, h1, h2, h3, h4, h5, h6, h7]

/-- C10 witness: "hello" in a user chat produces no reply and no change. -/
theorem user_chat_is_noop_witness :
    handle_message (Source.user "U") "hello" emptyDB = (none, emptyDB) :=
  user_chat_is_noop "U" "hello" emptyDB (by decide)

/-- C4 (amended): for every group message whose stripped first line
matches the report shape (a date, an optional parenthetical, and a
non-empty tail), the dispatcher calls `save_report` with the date and the
ENTIRE remaining tail of the first line as the reporter name — the result
and the new state are exactly those of that one call, so all lines after
the first are discarded and no separate content is stored anywhere. -/
theorem dispatch_report_whole_tail (g : GroupId) (full_text : String)
    (st : DBState) (ds nm : String)
    (hm : matchReportLine (pyStrip (firstLine full_text)) = some (ds, nm)) :
    handle_message (Source.group g) full_text st =
      (some (ReplyMsg.saveResult (save_report g ds (pyStrip nm) st).1
          ds (pyStrip nm)),
        (save_report g ds (pyStrip nm) st).2) := by
  obtain ⟨c, cs, ht, hc⟩ := matchReportLine_head_digit hm
  have g1 : pyStrip (firstLine full_text) ≠ "查詢所有人員" :=
    str_ne_of_digit_head ht hc (by decide)
  have g2 : pyStrip (firstLine full_text) ≠ "all list" :=
    str_ne_of_digit_head ht hc (by decide)
  have g3 : pyStrip (firstLine full_text) ≠ "所有名單" :=
    str_ne_of_digit_head ht hc (by decide)
  have g4 : pyStrip (firstLine full_text) ≠ "暫停回報提醒" :=
    str_ne_of_digit_head ht hc (by decide)
  have g5 : pyStrip (firstLine full_text) ≠ "pause reminder" :=
    str_ne_of_digit_head ht hc (by decide)
  have g6 : pyStrip (firstLine full_text) ≠ "恢復回報提醒" :=
    str_ne_of_digit_head ht hc (by decide)
  have g7 : pyStrip (firstLine full_text) ≠ "resume reminder" :=
    str_ne_of_digit_head ht hc (by decide)
  have hgrp := handleGroupCommands_report g (pyStrip (firstLine full_text)) st ds nm hm
  simp [handle_message, g1, g2, g3, g4, g5, g6, g7, hgrp]

/-- C4 witness: the two-line message
"2025.11.20 Alice had a great day\nsecond line" is dispatched as a report
by "Alice had a great day" for 2025.11.20 — the second line is
discarded and the whole first-line tail is the name. -/
theorem dispatch_report_whole_tail_witness :
    handle_message (Source.group "G1")
        "2025.11.20 Alice had a great day\nsecond line" c4State =
      (some (ReplyMsg.saveResult
          (save_report "G1" "2025.11.20" "Alice had a great day" c4State).1
          "2025.11.20" "Alice had a great day"),
        (save_report "G1" "2025.11.20" "Alice had a great day" c4State).2) :=
  dispatch_report_whole_tail "G1" "2025.11.20 Alice had a great day\nsecond line"
    c4State "2025.11.20" "Alice had a great day" (by decide)

/-- C4 counterexample: with roster {Alice, Bob} in G1, the message
"2025.11.20 Alice had a great day" does not record a Submission keyed by
Alice with content "had a great day": the whole tail is used as the name,
the report is rejected as not-on-roster, and no Submission is stored. -/
theorem c4_no_content_split :
    handle_message (Source.group "G1") "2025.11.20 Alice had a great day" c4State =
      (some (ReplyMsg.saveResult SaveResult.notOnRoster
          "2025.11.20" "Alice had a great day"), c4State) ∧
    (handle_message (Source.group "G1")
      "2025.11.20 Alice had a great day" c4State).2.reports = [] := by
  decide

end LineBot
